import Mathlib

/-!
Verification development for the `yt-is-down` repository.

The definitions below are a shallow embedding of `src/downloader.py` and
`src/config/download_config.py` / `src/config/error_messages.py`.  The
third-party extraction engine (`yt_dlp`) is modelled as an oracle that either
succeeds or raises a `DownloadError` carrying a message string; Python
exceptions become `Except`/`Option` values; Python `str` becomes `String`
(with `List Char` used where character-level parsing is needed).

Known modelling simplifications, each noted at the definition it concerns:
`str.lower` is modelled ASCII-only (all matched tokens are ASCII); percent
decoding maps each decoded byte to the character of its code point (exact for
ASCII escapes; real CPython decodes multi-byte UTF-8 sequences); the
control-character stripping added to `urllib.parse` in late CPython patch
releases is not modelled.
-/

set_option linter.unusedVariables false

deriving instance DecidableEq for Except

/-! ## Configuration constants (src/config/download_config.py) -/

namespace DownloadConfig

def DEFAULT_TIMEOUT : Nat := 30
def DEFAULT_SLEEP_INTERVAL : Nat := 15
def MAX_SLEEP_INTERVAL : Nat := 25
def PLAYLIST_SIZE_WARNING_THRESHOLD : Nat := 200
def PLAYLIST_PREVIEW_COUNT : Nat := 10

end DownloadConfig

namespace ValidationConfig

def YOUTUBE_DOMAINS : List String :=
  ["youtube.com", "www.youtube.com", "youtu.be", "m.youtube.com", "music.youtube.com"]

def PLAYLIST_INDICATORS : List String :=
  ["list=", "/playlist?", "&list=", "playlist/"]

def MAX_URL_LENGTH : Nat := 2048

end ValidationConfig

/-! ## String helpers modelling Python primitives -/

/-- Python whitespace characters recognised by `str.strip()` (ASCII subset). -/
def isPySpace (c : Char) : Bool :=
  c = ' ' || c = '\t' || c = '\n' || c = '\x0d' || c = '\x0b' || c = '\x0c'

/-- Python `s.strip()` with no argument (ASCII whitespace model). -/
def pyStrip (s : String) : String :=
  String.mk (((s.data.dropWhile isPySpace).reverse.dropWhile isPySpace).reverse)

/-- Python substring test `needle in hay` on character lists: `needle` occurs
contiguously in `hay` (the empty needle always occurs). -/
def containsSub (needle : List Char) : List Char → Bool
  | [] => needle.isEmpty
  | c :: t => needle.isPrefixOf (c :: t) || containsSub needle t

/-- Python `str.lower()` on one character (ASCII model: every token the source
lowercases and matches is ASCII). -/
def pyLowerChar (c : Char) : Char :=
  if 65 ≤ c.toNat ∧ c.toNat ≤ 90 then Char.ofNat (c.toNat + 32) else c

/-- Python `str.lower()` (ASCII model). -/
def pyLower (l : List Char) : List Char := l.map pyLowerChar

/-- Case-insensitive substring test: Python `needle.lower() in hay.lower()`. -/
def strContainsCI (hay needle : String) : Bool :=
  containsSub (pyLower needle.data) (pyLower hay.data)

/-- `YouTubeDownloader._error_contains`: whether the (lowered) exception
message contains any of the given (lowered) tokens. -/
def error_contains (msg : String) (tokens : List String) : Bool :=
  tokens.any (fun t => strContainsCI msg t)

/-! ## Error taxonomy (exception classes of src/downloader.py) -/

/-- The exception classes raised by `YouTubeDownloader`, each carrying the
message string it was constructed with (`str(e)` in Python). -/
inductive DlErr where
  | invalidURL (msg : String)
  | networkTimeout (msg : String)
  | videoUnavailable (msg : String)
  | downloaderError (msg : String)
  | playlistError (msg : String)
  | playlistTooLarge (msg : String)
  | playlistPrivate (msg : String)
deriving DecidableEq, Repr

/-- `str(e)`: the message carried by an exception value. -/
def DlErr.msg : DlErr → String
  | .invalidURL m => m
  | .networkTimeout m => m
  | .videoUnavailable m => m
  | .downloaderError m => m
  | .playlistError m => m
  | .playlistTooLarge m => m
  | .playlistPrivate m => m

def DlErr.isInvalidURL : DlErr → Bool
  | .invalidURL _ => true
  | _ => false

/-! ## Error message templates (src/config/error_messages.py) -/

namespace ErrorMessages

def INVALID_URL_FORMAT : String :=
  "Please enter a valid YouTube URL.\n\nSupported formats:\n• https://www.youtube.com/watch?v=...\n• https://youtu.be/...\n• https://m.youtube.com/watch?v=..."

def NETWORK_TIMEOUT (timeout : Nat) : String :=
  "Connection timed out after " ++ toString timeout ++ " seconds"

def NETWORK_ERROR (error : String) : String :=
  "Network error: " ++ error

def VIDEO_PRIVATE (details : String) : String :=
  "Video is unavailable: " ++ details

def PLAYLIST_TOO_LARGE (count threshold : Nat) : String :=
  "Playlist contains " ++ toString count ++ " videos. For safety, we recommend downloading playlists with fewer than " ++ toString threshold ++ " videos. Large playlists may take several hours and risk IP blocking."

def PLAYLIST_SINGLE_VIDEO : String :=
  "URL does not point to a playlist - this appears to be a single video"

def DOWNLOAD_FAILED (error : String) : String :=
  "Download failed: " ++ error

def HTTP_403_ERROR (details : String) : String :=
  "YouTube blocked the download (HTTP 403 Forbidden).\n\nThis can happen due to:\n• YouTube's anti-bot measures\n• Geographic restrictions\n• Rate limiting\n\nSolutions to try:\n1. Wait a few minutes and try again\n2. Try a different video quality\n3. Update yt-dlp: pip install --upgrade yt-dlp\n4. Use a VPN if geographically restricted\n\nTechnical details: " ++ details

def AUDIO_DOWNLOAD_FAILED : String :=
  "All audio download strategies failed due to YouTube restrictions (HTTP 403).\n\nYouTube has become extremely aggressive with audio-only downloads. Try:\n1. Update yt-dlp: pip install --upgrade yt-dlp\n2. Wait 1-2 hours before trying again\n3. Try downloading as video first, then convert to MP3 locally\n4. Use a VPN to change your location\n5. Try downloading during off-peak hours (late night/early morning)\n6. Check if the video has copyright restrictions in your region\n\n💡 Alternative: Download as video (which works more reliably) then use a local tool to convert to MP3.\n\nAudio downloads are significantly more likely to be blocked than video downloads."

def VIDEO_DOWNLOAD_FAILED : String :=
  "All download strategies failed due to YouTube restrictions (HTTP 403).\n\nYouTube frequently updates their anti-bot measures. Try:\n1. Update yt-dlp: pip install --upgrade yt-dlp\n2. Wait 10-15 minutes before trying again\n3. Try a different video quality\n4. Check if the video is available in your region"

def DISK_SPACE_ERROR : String :=
  "Insufficient disk space for download"

def FFMPEG_MISSING (error : String) : String :=
  "Audio conversion failed. Please install FFmpeg:\nWindows: Download from https://ffmpeg.org/download.html\nOr install via chocolatey: choco install ffmpeg\n\nError details: " ++ error

end ErrorMessages

/-! ## URL validation (`_validate_url`, `_is_valid_url`, `_is_playlist_url`) -/

/-- `YouTubeDownloader._is_valid_url`: any allowlisted domain string occurs as
a substring of the lowered URL. -/
def is_valid_url (url : String) : Bool :=
  ValidationConfig.YOUTUBE_DOMAINS.any (fun d => containsSub d.data (pyLower url.data))

/-- `YouTubeDownloader._is_playlist_url`. -/
def is_playlist_url (url : String) : Bool :=
  is_valid_url url &&
    ValidationConfig.PLAYLIST_INDICATORS.any (fun i => containsSub i.data (pyLower url.data))

/-- `YouTubeDownloader._is_video_in_playlist_url`. -/
def is_video_in_playlist_url (url : String) : Bool :=
  is_valid_url url &&
    (containsSub "watch?v=".data (pyLower url.data) ||
      containsSub "youtu.be/".data (pyLower url.data)) &&
    ValidationConfig.PLAYLIST_INDICATORS.any (fun i => containsSub i.data (pyLower url.data))

/-- `YouTubeDownloader._validate_url`: returns the raised `InvalidURLError`
(if any); `none` means validation passed. -/
def validate_url (url : String) : Option DlErr :=
  if url.data.isEmpty || (pyStrip url).data.isEmpty then
    some (.invalidURL "URL cannot be empty")
  else if ValidationConfig.MAX_URL_LENGTH < url.length then
    some (.invalidURL ("URL too long (max " ++ toString ValidationConfig.MAX_URL_LENGTH ++ " characters)"))
  else if !is_valid_url url then
    some (.invalidURL ErrorMessages.INVALID_URL_FORMAT)
  else
    none

/-! ## URL parsing model (`urllib.parse` subset used by the source)

`_extract_video_url_from_playlist` uses `urlparse` (for `netloc` and `query`)
and `parse_qs`.  The definitions below follow CPython's algorithm: optional
scheme removal, `//netloc` delimited by `/?#`, fragment split at the first
`#`, query after the first `?`, and `parse_qsl` splitting fields on `&`,
skipping fields without `=` and fields with blank values, and
percent/plus-decoding names and values. -/

/-- Split a list at the first occurrence of `sep`: the part before it, and
(if `sep` occurs) the part after it. -/
def splitOnFirst (sep : Char) : List Char → List Char × Option (List Char)
  | [] => ([], none)
  | c :: cs =>
    if c = sep then ([], some cs)
    else
      let r := splitOnFirst sep cs
      (c :: r.1, r.2)

/-- Characters CPython allows inside a URL scheme. -/
def isSchemeChar (c : Char) : Bool :=
  c.isAlpha || c.isDigit || c = '+' || c = '-' || c = '.'

/-- Scheme removal step of `urlsplit`: if the text before the first `:` is a
nonempty run of scheme characters starting with a letter, drop it (with the
colon); otherwise leave the URL unchanged. -/
def pyRemoveScheme (l : List Char) : List Char :=
  match splitOnFirst ':' l with
  | (_, none) => l
  | (pre, some rest) =>
    match pre with
    | [] => l
    | c :: _ => if c.isAlpha && pre.all isSchemeChar then rest else l

/-- Netloc step of `urlsplit`: if the (scheme-stripped) URL starts with `//`,
the netloc runs up to the first `/`, `?` or `#`; the rest keeps its leading
delimiter. -/
def pySplitNetloc (l : List Char) : List Char × List Char :=
  match l with
  | '/' :: '/' :: rest =>
    (rest.takeWhile (fun c => !(c = '/' || c = '?' || c = '#')),
     rest.dropWhile (fun c => !(c = '/' || c = '?' || c = '#')))
  | _ => ([], l)

/-- `urlparse(url).netloc` and `urlparse(url).query` (as character lists). -/
def urlparseNetlocQuery (url : String) : List Char × List Char :=
  let l1 := pyRemoveScheme url.data
  let (netloc, rest) := pySplitNetloc l1
  let preFrag := (splitOnFirst '#' rest).1
  let q := ((splitOnFirst '?' preFrag).2).getD []
  (netloc, q)

/-- Hex digit value, as used by percent decoding. -/
def hexVal (c : Char) : Option Nat :=
  if '0' ≤ c ∧ c ≤ '9' then some (c.toNat - 48)
  else if 'a' ≤ c ∧ c ≤ 'f' then some (c.toNat - 87)
  else if 'A' ≤ c ∧ c ≤ 'F' then some (c.toNat - 55)
  else none

/-- Percent decoding (`urllib.parse.unquote`): `%xy` with two hex digits
becomes the character of byte `xy`; invalid escapes are kept verbatim.  Each
decoded byte becomes one character (exact for ASCII escapes; CPython decodes
multi-byte sequences as UTF-8). -/
def unquoteCore : List Char → List Char
  | [] => []
  | c :: a :: b :: rest =>
    if c = '%' then
      match hexVal a, hexVal b with
      | some ha, some hb => Char.ofNat (16 * ha + hb) :: unquoteCore rest
      | _, _ => c :: unquoteCore (a :: b :: rest)
    else c :: unquoteCore (a :: b :: rest)
  | c :: rest => c :: unquoteCore rest

/-- `urllib.parse.unquote_plus`: `+` becomes a space, then percent decoding. -/
def unquotePlus (l : List Char) : List Char :=
  unquoteCore (l.map (fun c => if c = '+' then ' ' else c))

/-- Python `str.split(sep)` on character lists (auxiliary accumulator form). -/
def splitListAux (sep : Char) : List Char → List Char → List (List Char)
  | [], acc => [acc.reverse]
  | c :: cs, acc =>
    if c = sep then acc.reverse :: splitListAux sep cs []
    else splitListAux sep cs (c :: acc)

/-- Python `str.split(sep)`. -/
def splitList (sep : Char) (l : List Char) : List (List Char) :=
  splitListAux sep l []

/-- `urllib.parse.parse_qsl(query)` with default arguments: fields split on
`&`; empty fields, fields without `=`, and fields with blank values are
skipped; names and values are plus/percent-decoded. -/
def parse_qsl (q : List Char) : List (List Char × List Char) :=
  (splitList '&' q).filterMap (fun field =>
    if field.isEmpty then none
    else
      match splitOnFirst '=' field with
      | (_, none) => none
      | (name, some value) =>
        if value.isEmpty then none
        else some (unquotePlus name, unquotePlus value))

/-- `parse_qs(query).get('v', [None])[0]`: the first decoded value whose
decoded name is `v`. -/
def getParamV (q : List Char) : Option (List Char) :=
  (((parse_qsl q).filter (fun p => p.1 = ['v'])).head?).map (fun p => p.2)

/-- `YouTubeDownloader._extract_video_url_from_playlist`. -/
def extract_video_url_from_playlist (url : String) : String :=
  let nq := urlparseNetlocQuery url
  match getParamV nq.2 with
  | none => url
  | some vid =>
    if vid.isEmpty then url
    else if containsSub "youtube.com".data nq.1 then
      "https://www.youtube.com/watch?v=" ++ String.mk vid
    else if containsSub "youtu.be".data nq.1 then
      "https://youtu.be/" ++ String.mk vid
    else url

/-! ## Error classification helpers (`_is_http_403_error` etc.) -/

def is_http_403_error (msg : String) : Bool := error_contains msg ["403", "forbidden"]

def is_timeout_error (msg : String) : Bool := error_contains msg ["timeout", "timed out"]

def is_private_video_error (msg : String) : Bool :=
  error_contains msg ["private video", "unavailable"]

def is_disk_space_error (msg : String) : Bool := error_contains msg ["no space left"]

def is_ffmpeg_error (msg : String) : Bool := error_contains msg ["ffmpeg"]

/-- The closed taxonomy produced by `download_video`'s
`except yt_dlp.DownloadError` handler (src/downloader.py lines 701-714). -/
inductive ErrKind where
  | videoUnavailable
  | networkTimeout
  | accessDenied
  | diskSpace
  | ffmpegMissing
  | generic
deriving DecidableEq, Repr

/-- The classification chain of `download_video`'s `DownloadError` handler, in
source order: private/unavailable, then timeout, then 403, then disk space,
then ffmpeg (audio only), then generic. -/
def classify_download_error (msg : String) (audio_only : Bool) : ErrKind :=
  if is_private_video_error msg then .videoUnavailable
  else if is_timeout_error msg then .networkTimeout
  else if is_http_403_error msg then .accessDenied
  else if is_disk_space_error msg then .diskSpace
  else if is_ffmpeg_error msg && audio_only then .ffmpegMissing
  else .generic

/-- The typed exception `download_video` raises for a `DownloadError` whose
message is `msg` (each branch of the handler, with its message template). -/
def typed_download_error (msg : String) (audio_only : Bool) : DlErr :=
  match classify_download_error msg audio_only with
  | .videoUnavailable => .videoUnavailable (ErrorMessages.VIDEO_PRIVATE msg)
  | .networkTimeout => .networkTimeout (ErrorMessages.NETWORK_ERROR msg)
  | .accessDenied => .downloaderError (ErrorMessages.HTTP_403_ERROR msg)
  | .diskSpace => .downloaderError ErrorMessages.DISK_SPACE_ERROR
  | .ffmpegMissing => .downloaderError (ErrorMessages.FFMPEG_MISSING msg)
  | .generic => .downloaderError (ErrorMessages.DOWNLOAD_FAILED msg)

/-! ## Quality string parsing (`download_video` / `download_playlist`) -/

/-- Digit run acceptable to Python `int()` after the first digit: single
underscores must sit between digits. -/
def pyDigitsCore : List Char → Bool
  | [] => true
  | '_' :: c :: rest => c.isDigit && pyDigitsCore rest
  | '_' :: [] => false
  | c :: rest => c.isDigit && pyDigitsCore rest

/-- Whether a character list is a valid Python `int()` digit body. -/
def pyDigitsOk : List Char → Bool
  | [] => false
  | c :: rest => c.isDigit && pyDigitsCore (c :: rest) && pyDigitsCore rest

/-- Numeric value of a digit body (underscores removed). -/
def pyDigitsVal (l : List Char) : Nat :=
  (l.filter (fun c => c ≠ '_')).foldl (fun acc c => 10 * acc + (c.toNat - 48)) 0

/-- Python `int(s)` (base 10): optional surrounding whitespace, one optional
sign, then digits possibly separated by single underscores.  Returns the
parsed integer, or `none` when `int()` raises `ValueError`.  (Non-ASCII
decimal digits, which CPython also accepts, are not modelled.) -/
def pyParseInt (s : String) : Option Int :=
  match (pyStrip s).data with
  | '+' :: rest => if pyDigitsOk rest then some (Int.ofNat (pyDigitsVal rest)) else none
  | '-' :: rest => if pyDigitsOk rest then some (-(Int.ofNat (pyDigitsVal rest))) else none
  | rest => if pyDigitsOk rest then some (Int.ofNat (pyDigitsVal rest)) else none

/-- The `height` string computed by `download_video`: the part of `quality`
before the first `p` when `quality` contains a `p`, else `quality` itself. -/
def height_segment (quality : String) : String :=
  if containsSub ['p'] quality.data then
    String.mk (splitOnFirst 'p' quality.data).1
  else quality

/-- The yt-dlp format selector computed by `download_video` (and duplicated in
`download_playlist`) for a non-audio request. -/
def format_selector (quality : String) : String :=
  if quality = "best" then "best"
  else if quality = "worst" then "worst"
  else
    match pyParseInt (height_segment quality) with
    | some _ => "best[height<=" ++ height_segment quality ++ "]"
    | none => "best"

/-! ## Format list extraction (`_get_available_formats`) -/

/-- One entry of the engine's `formats` list, restricted to the keys the
source reads.  `none` models an absent key or a `None` value. -/
structure VideoFormat where
  vcodec : Option String
  height : Option Nat
  ext : Option String
deriving DecidableEq, Repr

/-- Python truthiness of `f.get('height')` (falsy when absent or zero). -/
def heightTruthy : Option Nat → Bool
  | none => false
  | some n => n ≠ 0

/-- Python truthiness of `f.get('ext')` (falsy when absent or empty). -/
def extTruthy : Option String → Bool
  | none => false
  | some s => s ≠ ""

/-- The rendered entry `f"{quality}p - {ext}"` when the format is kept. -/
def renderFormat (f : VideoFormat) : Option String :=
  if f.vcodec ≠ some "none" then
    match f.height, f.ext with
    | some h, some e =>
      if h ≠ 0 ∧ e ≠ "" then some (toString h ++ "p - " ++ e) else none
    | _, _ => none
  else none

/-- Accumulator form of `dict.fromkeys`: keep elements not yet seen. -/
def dict_fromkeys_aux (seen : List String) : List String → List String
  | [] => []
  | a :: l =>
    if a ∈ seen then dict_fromkeys_aux seen l
    else a :: dict_fromkeys_aux (a :: seen) l

/-- Python `list(dict.fromkeys(l))`: remove duplicates, keeping the first
occurrence of each element. -/
def dict_fromkeys (l : List String) : List String := dict_fromkeys_aux [] l

/-- `YouTubeDownloader._get_available_formats` (the engine `info` reduced to
its `formats` list). -/
def get_available_formats (formats : List VideoFormat) : List String :=
  dict_fromkeys (formats.filterMap renderFormat)

/-! ## Fetch ladder (`_try_download_with_fallbacks`)

The engine's `ydl.download` is modelled as an oracle `eng : Nat → Option
String` indexed by strategy: `none` means the download succeeded, `some msg`
means it raised `yt_dlp.DownloadError(msg)`.  The index encodes which option
set the strategy builds (the option dictionaries themselves only influence
the engine, so they live behind the oracle):
0 = `_try_normal_download`; 1 = `_try_audio_format_fallback`;
2 = video-then-extract-audio (strategy 2b); 3 = `_try_mobile_client_fallback`;
4 = iOS client (2d); 5 = web client (2e); 6 = TV client (2f);
7 = conservative settings (strategy 3); 8 = bypass extractor args
(strategy 4, audio only); 9 = minimal options (strategy 5). -/

/-- The strategy indices tried after a 403 at the primary attempt, in source
order; the audio-only rungs appear only for audio requests. -/
def ladder_rungs (audio_only : Bool) : List Nat :=
  (if audio_only then [1, 2, 3, 4, 5, 6] else []) ++ [7] ++
    (if audio_only then [8] else []) ++ [9]

/-- Walk the post-primary rungs: every rung catches `DownloadError` and moves
on; the first success stops the walk.  Returns the attempted indices and
whether some rung succeeded. -/
def run_rungs (eng : Nat → Option String) : List Nat → List Nat × Bool
  | [] => ([], false)
  | i :: rest =>
    match eng i with
    | none => ([i], true)
    | some _ =>
      let r := run_rungs eng rest
      (i :: r.1, r.2)

/-- Result of the whole ladder: success, a re-raised `DownloadError` from the
primary attempt, or exhaustion of every strategy. -/
inductive LadderOutcome where
  | success
  | raised (msg : String)
  | exhausted
deriving DecidableEq, Repr

/-- `YouTubeDownloader._try_download_with_fallbacks`: the primary attempt
(`_try_normal_download`) re-raises any `DownloadError` that is not a 403; on
a 403 the remaining rungs run in order until one succeeds; if none does,
`_raise_fallback_error` fires (`exhausted`).  Returns the attempted strategy
indices alongside the outcome. -/
def try_download_with_fallbacks (eng : Nat → Option String) (audio_only : Bool) :
    List Nat × LadderOutcome :=
  match eng 0 with
  | none => ([0], .success)
  | some m =>
    if is_http_403_error m then
      let r := run_rungs eng (ladder_rungs audio_only)
      (0 :: r.1, if r.2 then .success else .exhausted)
    else ([0], .raised m)

/-- The message of the `DownloadError` raised by `_raise_fallback_error`. -/
def fallback_error_msg (audio_only : Bool) : String :=
  if audio_only then ErrorMessages.AUDIO_DOWNLOAD_FAILED
  else ErrorMessages.VIDEO_DOWNLOAD_FAILED

/-- `YouTubeDownloader.download_video` (progress callback omitted: it only
forwards events).  `mkdir_result` models `output_dir.mkdir` (`some e` is the
`YouTubeDownloaderError` raised on `PermissionError`/`OSError`).  The engine
oracle receives the `format` field of the base options and the strategy
index.  Returns the outcome and the number of engine download calls. -/
def download_video (mkdir_result : Option DlErr) (eng : String → Nat → Option String)
    (url : String) (quality : String) (audio_only : Bool) :
    Except DlErr Bool × Nat :=
  match validate_url url with
  | some e => (.error e, 0)
  | none =>
    match mkdir_result with
    | some e => (.error e, 0)
    | none =>
      let fmt := if audio_only then "bestaudio/best" else format_selector quality
      let r := try_download_with_fallbacks (eng fmt) audio_only
      match r.2 with
      | .success => (.ok true, r.1.length)
      | .raised m => (.error (typed_download_error m audio_only), r.1.length)
      | .exhausted =>
        (.error (typed_download_error (fallback_error_msg audio_only) audio_only), r.1.length)

/-! ## Metadata resolution (`get_video_info`, `get_playlist_info`,
`get_video_and_playlist_info`, `get_content_info`)

`ydl.extract_info(url, download=False)` is modelled as an oracle taking the
`extract_flat` flag and the URL.  Each entry point returns its outcome
together with the number of engine invocations it performed (the claim C5
network-call counter). -/

/-- The engine `info` dictionary, restricted to the keys the source reads.
`none` models an absent key (or one mapped to `None`); an absent `entries`
key is identified with `[]` because the source reads it as
`info.get('entries', [])`. -/
structure MediaInfo where
  typeTag : Option String
  title : Option String
  uploader : Option String
  description : Option String
  duration : Option Nat
  idTag : Option String
  entries : List String
  formats : List VideoFormat
deriving DecidableEq, Repr

/-- Outcome of one `extract_info` call: a returned `info`, a returned `None`,
or one of the exception families the source catches. -/
inductive ExtractOutcome where
  | ok (info : MediaInfo)
  | noInfo
  | sockTimeout
  | urlError (msg : String)
  | dlError (msg : String)
  | otherError (msg : String)
deriving DecidableEq, Repr

/-- The extraction engine oracle: `extract_flat` flag and URL. -/
def ExtractEngine : Type := Bool → String → ExtractOutcome

/-- The dictionary returned by `get_video_info`. -/
structure VideoInfo where
  title : String
  duration : Nat
  uploader : String
  formats : List String
deriving DecidableEq, Repr

/-- `YouTubeDownloader.get_video_info`.  Note: the `VideoUnavailableError`
raised inside the `try` block when `info` is falsy is itself caught by the
trailing `except Exception` clause and re-raised as a
`YouTubeDownloaderError` with the "Unexpected error" prefix. -/
def get_video_info (eng : ExtractEngine) (timeout : Nat) (url : String) :
    Except DlErr VideoInfo × Nat :=
  match validate_url url with
  | some e => (.error e, 0)
  | none =>
    match eng false url with
    | .ok info =>
      (.ok { title := info.title.getD "Unknown", duration := info.duration.getD 0,
             uploader := info.uploader.getD "Unknown",
             formats := get_available_formats info.formats }, 1)
    | .noInfo =>
      (.error (.downloaderError
        "Unexpected error getting video info: Could not extract video information"), 1)
    | .sockTimeout => (.error (.networkTimeout (ErrorMessages.NETWORK_TIMEOUT timeout)), 1)
    | .urlError m =>
      if strContainsCI m "timed out" then
        (.error (.networkTimeout (ErrorMessages.NETWORK_ERROR m)), 1)
      else (.error (.downloaderError (ErrorMessages.NETWORK_ERROR m)), 1)
    | .dlError m =>
      if strContainsCI m "private video" || strContainsCI m "unavailable" then
        (.error (.videoUnavailable ("Video is unavailable: " ++ m)), 1)
      else if strContainsCI m "timeout" then
        (.error (.networkTimeout ("Download timeout: " ++ m)), 1)
      else (.error (.downloaderError ("Download error: " ++ m)), 1)
    | .otherError m =>
      (.error (.downloaderError ("Unexpected error getting video info: " ++ m)), 1)

/-- The dictionary returned by `get_playlist_info`. -/
structure PlaylistInfo where
  title : String
  uploader : String
  description : String
  video_count : Nat
  estimated_time_minutes : Nat
  entries : List String
  url : String
  idTag : String
deriving DecidableEq, Repr

/-- The trailing `except Exception` clause of `get_playlist_info`: every
typed exception raised inside the `try` block (private, wrong type, empty,
too large) is caught here and re-raised as a `PlaylistError` with this
prefix. -/
def playlistUnexpected (m : String) : DlErr :=
  .playlistError ("Unexpected error getting playlist info: " ++ m)

/-- `YouTubeDownloader.get_playlist_info`. -/
def get_playlist_info (eng : ExtractEngine) (timeout : Nat) (url : String) :
    Except DlErr PlaylistInfo × Nat :=
  match validate_url url with
  | some e => (.error e, 0)
  | none =>
    match eng true url with
    | .ok info =>
      if info.typeTag ≠ some "playlist" then
        if is_playlist_url url then
          (.error (playlistUnexpected
            ("URL appears to be a playlist URL but yt-dlp detected it as: " ++
              info.typeTag.getD "unknown" ++
              ".\nThis might be a single video in a playlist or an invalid playlist URL.")), 1)
        else
          (.error (playlistUnexpected
            "URL does not point to a playlist - this appears to be a single video"), 1)
      else
        let n := info.entries.length
        if n = 0 then
          (.error (playlistUnexpected
            "Playlist appears to be empty or all videos are unavailable"), 1)
        else if DownloadConfig.PLAYLIST_SIZE_WARNING_THRESHOLD < n then
          (.error (playlistUnexpected
            (ErrorMessages.PLAYLIST_TOO_LARGE n DownloadConfig.PLAYLIST_SIZE_WARNING_THRESHOLD)), 1)
        else
          let avg_delay :=
            (DownloadConfig.DEFAULT_SLEEP_INTERVAL + DownloadConfig.MAX_SLEEP_INTERVAL) / 2
          (.ok { title := info.title.getD "Unknown Playlist",
                 uploader := info.uploader.getD "Unknown",
                 description := info.description.getD "",
                 video_count := n,
                 estimated_time_minutes := n * avg_delay / 60,
                 entries := info.entries.take DownloadConfig.PLAYLIST_PREVIEW_COUNT,
                 url := url, idTag := info.idTag.getD "" }, 1)
    | .noInfo =>
      (.error (playlistUnexpected
        "Could not extract information - content may be private or unavailable"), 1)
    | .sockTimeout => (.error (.networkTimeout (ErrorMessages.NETWORK_TIMEOUT timeout)), 1)
    | .urlError m =>
      if strContainsCI m "timed out" then
        (.error (.networkTimeout ("Network timeout: " ++ m)), 1)
      else (.error (.downloaderError ("Network error: " ++ m)), 1)
    | .dlError m =>
      if strContainsCI m "private" || strContainsCI m "unavailable" then
        (.error (.playlistPrivate ("Playlist is unavailable: " ++ m)), 1)
      else if strContainsCI m "timeout" then
        (.error (.networkTimeout ("Playlist extraction timeout: " ++ m)), 1)
      else (.error (.playlistError ("Playlist extraction failed: " ++ m)), 1)
    | .otherError m =>
      (.error (playlistUnexpected m), 1)

/-- The dictionary returned by `get_video_and_playlist_info`. -/
structure HybridInfo where
  video_info : VideoInfo
  playlist_info : PlaylistInfo
  video_url : String
  playlist_url : String
  video_title : String
  playlist_title : String
  playlist_video_count : Nat
deriving DecidableEq, Repr

/-- `YouTubeDownloader.get_video_and_playlist_info`: any failure of either
sub-resolution is wrapped into one `YouTubeDownloaderError`. -/
def get_video_and_playlist_info (eng : ExtractEngine) (timeout : Nat) (url : String) :
    Except DlErr HybridInfo × Nat :=
  match validate_url url with
  | some e => (.error e, 0)
  | none =>
    let video_url := extract_video_url_from_playlist url
    match get_video_info eng timeout video_url with
    | (.error e, n) =>
      (.error (.downloaderError
        ("Could not extract video and playlist information: " ++ e.msg)), n)
    | (.ok vi, n) =>
      match get_playlist_info eng timeout url with
      | (.error e, m) =>
        (.error (.downloaderError
          ("Could not extract video and playlist information: " ++ e.msg)), n + m)
      | (.ok pi, m) =>
        (.ok { video_info := vi, playlist_info := pi, video_url := video_url,
               playlist_url := url, video_title := vi.title, playlist_title := pi.title,
               playlist_video_count := pi.video_count }, n + m)

/-- The three result shapes of `get_content_info`. -/
inductive ContentInfo where
  | video (v : VideoInfo)
  | playlist (p : PlaylistInfo)
  | hybrid (h : HybridInfo)
deriving DecidableEq, Repr

/-- The URL-based fallback branch of `get_content_info` (its
`except Exception` clause). -/
def content_info_fallback (eng : ExtractEngine) (timeout : Nat) (url : String) (pre : Nat) :
    Except DlErr ContentInfo × Nat :=
  if is_playlist_url url then
    match get_playlist_info eng timeout url with
    | (.ok p, k) => (.ok (.playlist p), pre + k)
    | (.error e, k) => (.error e, pre + k)
  else
    match get_video_info eng timeout url with
    | (.ok v, k) => (.ok (.video v), pre + k)
    | (.error e, k) => (.error e, pre + k)

/-- `YouTubeDownloader.get_content_info`: hybrid URLs delegate to
`get_video_and_playlist_info`; otherwise a flat probe decides between
playlist and video resolution, and any exception inside the probe `try`
block (including failures of the delegated resolutions) falls back to
URL-based detection. -/
def get_content_info (eng : ExtractEngine) (timeout : Nat) (url : String) :
    Except DlErr ContentInfo × Nat :=
  match validate_url url with
  | some e => (.error e, 0)
  | none =>
    if is_video_in_playlist_url url then
      match get_video_and_playlist_info eng timeout url with
      | (.ok h, n) => (.ok (.hybrid h), n)
      | (.error e, n) => (.error e, n)
    else
      match eng true url with
      | .ok info =>
        if info.typeTag.getD "video" = "playlist" then
          match get_playlist_info eng timeout url with
          | (.ok p, k) => (.ok (.playlist p), 1 + k)
          | (.error _, k) => content_info_fallback eng timeout url (1 + k)
        else
          match get_video_info eng timeout url with
          | (.ok v, k) => (.ok (.video v), 1 + k)
          | (.error _, k) => content_info_fallback eng timeout url (1 + k)
      | _ => content_info_fallback eng timeout url 1

/-! ## Batch controller (`download_playlist`) -/

/-- The fields of a supplied (or resolved) playlist-info dictionary that
`download_playlist` reads: `playlist_info['title']` and
`playlist_info['video_count']`. -/
structure PlMeta where
  title : String
  video_count : Nat
deriving DecidableEq, Repr

/-- The statistics dictionary `download_playlist` returns.  The wall-clock
`total_time_seconds` field is not modelled; the `downloaded`/`failed`
counters are only incremented from progress hooks, which are attached only
when a progress callback is supplied (omitted here), so they remain zero. -/
structure BatchResult where
  success : Bool
  playlist_title : String
  total_videos : Int
  downloaded : Nat
  failed : Nat
  skipped : Nat
  errors : List String
deriving DecidableEq, Repr

/-- The range guard of `download_playlist`: with 1-based inclusive
`(start, end)` and `total` items, the source converts to
`start_idx = max(0, start-1)`, `end_idx = min(total, end)` and raises
`PlaylistError("Invalid video range specified")` when
`start_idx >= end_idx`. -/
def range_invalid (total s e : Int) : Bool :=
  min total e ≤ max 0 (s - 1)

/-- The range-failure condition as the specification words it (for comparison
with `range_invalid`): clamp `start` and `end` to `[1, total]` and fail when
`start >= end`. -/
def claimed_range_invalid (total s e : Int) : Bool :=
  max 1 (min e total) ≤ max 1 (min s total)

/-- The outer `except yt_dlp.DownloadError` handler of `download_playlist`. -/
def playlist_dl_error (m : String) : DlErr :=
  let ml := pyLower m.data
  if containsSub "403".data ml || containsSub "forbidden".data ml then
    .downloaderError (ErrorMessages.HTTP_403_ERROR m)
  else if containsSub "not a playlist".data ml || containsSub "single video".data ml then
    .playlistError ErrorMessages.PLAYLIST_SINGLE_VIDEO
  else
    .playlistError (ErrorMessages.DOWNLOAD_FAILED m)

/-- `YouTubeDownloader.download_playlist` (progress callback omitted).
`dl` models the engine's playlist `ydl.download` call and `dl_fallback` the
single-video retry issued when the first call fails with a
"not a playlist"/"single video" message; in both, `some msg` is a raised
`yt_dlp.DownloadError(msg)`.  Returns the outcome and the number of engine
invocations (extractions plus downloads). -/
def download_playlist (mkdir_result : Option DlErr) (eng : ExtractEngine)
    (dl : Option String) (dl_fallback : Option String) (timeout : Nat)
    (url quality : String) (audio_only : Bool) (video_range : Option (Int × Int))
    (playlist_info : Option PlMeta) : Except DlErr BatchResult × Nat :=
  match validate_url url with
  | some e => (.error e, 0)
  | none =>
    match mkdir_result with
    | some e => (.error e, 0)
    | none =>
      -- Resolve playlist info unless supplied; any resolution failure, or a
      -- result without `is_playlist`/`video_count` keys (single video or
      -- hybrid), degrades to the minimal placeholder.
      let resolved : PlMeta × Nat :=
        match playlist_info with
        | some p => (p, 0)
        | none =>
          match get_content_info eng timeout url with
          | (.ok (.playlist p), k) => ({ title := p.title, video_count := p.video_count }, k)
          | (.ok _, k) => ({ title := "Unknown Playlist", video_count := 1 }, k)
          | (.error _, k) => ({ title := "Unknown Playlist", video_count := 1 }, k)
      let meta := resolved.1
      let total : Int := meta.video_count
      let rangeBad :=
        match video_range with
        | some r => range_invalid total r.1 r.2
        | none => false
      if rangeBad then
        (.error (.playlistError "Invalid video range specified"), resolved.2)
      else
        let start_idx : Int := match video_range with
          | some r => max 0 (r.1 - 1)
          | none => 0
        let end_idx : Int := match video_range with
          | some r => min total r.2
          | none => total
        let okResult : BatchResult :=
          { success := true, playlist_title := meta.title,
            total_videos := end_idx - start_idx, downloaded := 0, failed := 0,
            skipped := 0, errors := [] }
        match dl with
        | none => (.ok okResult, resolved.2 + 1)
        | some m =>
          let ml := pyLower m.data
          if containsSub "not a playlist".data ml || containsSub "single video".data ml then
            match dl_fallback with
            | none => (.ok okResult, resolved.2 + 2)
            | some m2 => (.error (playlist_dl_error m2), resolved.2 + 2)
          else (.error (playlist_dl_error m), resolved.2 + 1)

/-- The v-parameter the source would extract from a URL. -/
def extractedVid (url : String) : Option (List Char) :=
  getParamV (urlparseNetlocQuery url).2

/-- Characters of a well-formed video identifier (the alphabet of real
YouTube ids): ASCII alphanumerics, `-` and `_`. -/
def isVidChar (c : Char) : Bool :=
  c.isAlphanum || c = '-' || c = '_'

/-- Whether the v-parameter extracted from `url` (if any) is made only of
well-formed identifier characters. -/
def extractedVidOk (url : String) : Bool :=
  match extractedVid url with
  | none => true
  | some vid => vid.all isVidChar

/-! ## General lemmas about the embedded primitives -/

theorem splitOnFirst_not_mem {sep : Char} {l : List Char} (h : sep ∉ l) :
    splitOnFirst sep l = (l, none) := by
  induction l with
  | nil => rfl
  | cons c t ih =>
    simp only [List.mem_cons, not_or] at h
    have hc : ¬ c = sep := fun hc => h.1 hc.symm
    simp [splitOnFirst, hc, ih h.2]

theorem splitOnFirst_append_not_mem {sep : Char} {a : List Char} (l : List Char)
    (h : sep ∉ a) :
    splitOnFirst sep (a ++ l) =
      (a ++ (splitOnFirst sep l).1, (splitOnFirst sep l).2) := by
  induction a with
  | nil => simp
  | cons c t ih =>
    simp only [List.mem_cons, not_or] at h
    have hc : ¬ c = sep := fun hc => h.1 hc.symm
    simp [splitOnFirst, hc, ih h.2]

theorem splitOnFirst_cons_self (sep : Char) (l : List Char) :
    splitOnFirst sep (sep :: l) = ([], some l) := by
  simp [splitOnFirst]

theorem takeWhile_append_all {p : Char → Bool} {a : List Char} (l : List Char)
    (h : a.all p = true) : (a ++ l).takeWhile p = a ++ l.takeWhile p := by
  induction a with
  | nil => simp
  | cons c t ih =>
    simp only [List.all_cons, Bool.and_eq_true] at h
    simp [List.takeWhile, h.1, ih h.2]

theorem dropWhile_append_all {p : Char → Bool} {a : List Char} (l : List Char)
    (h : a.all p = true) : (a ++ l).dropWhile p = l.dropWhile p := by
  induction a with
  | nil => simp
  | cons c t ih =>
    simp only [List.all_cons, Bool.and_eq_true] at h
    simp [List.dropWhile, h.1, ih h.2]

theorem splitListAux_not_mem {sep : Char} {l : List Char} (acc : List Char)
    (h : sep ∉ l) : splitListAux sep l acc = [acc.reverse ++ l] := by
  induction l generalizing acc with
  | nil => simp [splitListAux]
  | cons c t ih =>
    simp only [List.mem_cons, not_or] at h
    have hc : ¬ c = sep := fun hc => h.1 hc.symm
    simp [splitListAux, hc, ih _ h.2]

theorem splitList_not_mem {sep : Char} {l : List Char} (h : sep ∉ l) :
    splitList sep l = [l] := by
  simpa [splitList] using splitListAux_not_mem [] h

theorem unquoteCore_no_escape : ∀ {l : List Char}, '%' ∉ l → unquoteCore l = l := by
  intro l
  induction l with
  | nil => intro _; rfl
  | cons c t ih =>
    intro h
    simp only [List.mem_cons, not_or] at h
    have hc : ¬ c = '%' := fun hcc => h.1 hcc.symm
    have ht := ih h.2
    match t with
    | [] => simp [unquoteCore]
    | [a] => simp [unquoteCore]
    | a :: b :: t3 => simp [unquoteCore, hc, ht]

theorem map_plus_id {l : List Char} (h : '+' ∉ l) :
    l.map (fun c => if c = '+' then ' ' else c) = l := by
  induction l with
  | nil => rfl
  | cons c t ih =>
    simp only [List.mem_cons, not_or] at h
    have hc : ¬ c = '+' := fun hc => h.1 hc.symm
    simp [hc, ih h.2]

theorem unquotePlus_id {l : List Char} (hp : '+' ∉ l) (he : '%' ∉ l) :
    unquotePlus l = l := by
  rw [unquotePlus, map_plus_id hp, unquoteCore_no_escape he]

theorem not_mem_of_all_vidchar {vid : List Char} (h : vid.all isVidChar = true)
    {c : Char} (hc : isVidChar c = false) : c ∉ vid := by
  intro hmem
  have := List.all_eq_true.mp h c hmem
  rw [hc] at this
  exact Bool.noConfusion this

/-! ## Lemmas about `dict_fromkeys` -/

theorem mem_dict_fromkeys_aux {x : String} :
    ∀ {l seen : List String}, x ∈ dict_fromkeys_aux seen l ↔ x ∈ l ∧ x ∉ seen := by
  intro l
  induction l with
  | nil => intro seen; simp [dict_fromkeys_aux]
  | cons a t ih =>
    intro seen
    by_cases ha : a ∈ seen
    · simp only [dict_fromkeys_aux, if_pos ha]
      rw [ih]
      constructor
      · rintro ⟨h1, h2⟩; exact ⟨List.mem_cons_of_mem _ h1, h2⟩
      · rintro ⟨h1, h2⟩
        rcases List.mem_cons.mp h1 with h | h
        · exact absurd (h ▸ ha) h2
        · exact ⟨h, h2⟩
    · simp only [dict_fromkeys_aux, if_neg ha, List.mem_cons]
      rw [ih]
      constructor
      · rintro (h | ⟨h1, h2⟩)
        · exact ⟨Or.inl h, h ▸ ha⟩
        · exact ⟨Or.inr h1, fun hx => h2 (List.mem_cons_of_mem _ hx)⟩
      · rintro ⟨h1 | h1, h2⟩
        · exact Or.inl h1
        · by_cases hxa : x = a
          · exact Or.inl hxa
          · exact Or.inr ⟨h1, fun hx => by
              rcases List.mem_cons.mp hx with h | h
              · exact hxa h
              · exact h2 h⟩

theorem dict_fromkeys_aux_nodup :
    ∀ (l seen : List String), (dict_fromkeys_aux seen l).Nodup := by
  intro l
  induction l with
  | nil => intro seen; simp [dict_fromkeys_aux]
  | cons a t ih =>
    intro seen
    by_cases ha : a ∈ seen
    · simpa [dict_fromkeys_aux, if_pos ha] using ih seen
    · simp only [dict_fromkeys_aux, if_neg ha]
      refine List.nodup_cons.mpr ⟨?_, ih _⟩
      intro hmem
      exact (mem_dict_fromkeys_aux.mp hmem).2 (List.mem_cons_self a seen)

theorem dict_fromkeys_aux_sublist :
    ∀ (l seen : List String), List.Sublist (dict_fromkeys_aux seen l) l := by
  intro l
  induction l with
  | nil => intro seen; simp [dict_fromkeys_aux]
  | cons a t ih =>
    intro seen
    by_cases ha : a ∈ seen
    · simpa [dict_fromkeys_aux, if_pos ha] using (ih seen).cons a
    · simpa [dict_fromkeys_aux, if_neg ha] using (ih (a :: seen)).cons₂ a

theorem mem_dict_fromkeys {x : String} {l : List String} :
    x ∈ dict_fromkeys l ↔ x ∈ l := by
  rw [dict_fromkeys, mem_dict_fromkeys_aux]
  simp

theorem dict_fromkeys_nodup (l : List String) : (dict_fromkeys l).Nodup :=
  dict_fromkeys_aux_nodup l []

theorem dict_fromkeys_sublist (l : List String) : List.Sublist (dict_fromkeys l) l :=
  dict_fromkeys_aux_sublist l []

/-! ## Lemmas about validation-first entry points -/

theorem dropWhile_all_space : ∀ {l : List Char}, l.all isPySpace = true →
    l.dropWhile isPySpace = [] := by
  intro l
  induction l with
  | nil => intro _; rfl
  | cons c t ih =>
    intro h
    simp only [List.all_cons, Bool.and_eq_true] at h
    simp [List.dropWhile, h.1, ih h.2]

theorem pyStrip_all_space {s : String} (h : s.data.all isPySpace = true) :
    (pyStrip s).data = [] := by
  have h1 := dropWhile_all_space h
  simp [pyStrip, h1]

theorem validate_url_empty {url : String} (h : url.data.all isPySpace = true) :
    validate_url url = some (.invalidURL "URL cannot be empty") := by
  have h1 := pyStrip_all_space h
  simp [validate_url, h1, List.isEmpty]

theorem validate_url_some_of {url : String}
    (h : is_valid_url url = false ∨ ValidationConfig.MAX_URL_LENGTH < url.length) :
    ∃ m, validate_url url = some (.invalidURL m) := by
  rw [validate_url]
  split
  · exact ⟨_, rfl⟩
  · split
    · exact ⟨_, rfl⟩
    · split
      · exact ⟨_, rfl⟩
      · rename_i h1 h2 h3
        rcases h with h | h
        · rw [h] at h3; simp at h3
        · exact absurd h h2

theorem get_video_info_invalid {url : String} {e : DlErr} (eng : ExtractEngine)
    (t : Nat) (h : validate_url url = some e) :
    get_video_info eng t url = (.error e, 0) := by
  rw [get_video_info, h]

theorem get_playlist_info_invalid {url : String} {e : DlErr} (eng : ExtractEngine)
    (t : Nat) (h : validate_url url = some e) :
    get_playlist_info eng t url = (.error e, 0) := by
  rw [get_playlist_info, h]

theorem get_video_and_playlist_info_invalid {url : String} {e : DlErr}
    (eng : ExtractEngine) (t : Nat) (h : validate_url url = some e) :
    get_video_and_playlist_info eng t url = (.error e, 0) := by
  rw [get_video_and_playlist_info, h]

theorem get_content_info_invalid {url : String} {e : DlErr} (eng : ExtractEngine)
    (t : Nat) (h : validate_url url = some e) :
    get_content_info eng t url = (.error e, 0) := by
  rw [get_content_info, h]

theorem download_video_invalid {url : String} {e : DlErr} (mk : Option DlErr)
    (eng : String → Nat → Option String) (q : String) (a : Bool)
    (h : validate_url url = some e) :
    download_video mk eng url q a = (.error e, 0) := by
  rw [download_video.eq_def, h]

theorem download_playlist_invalid {url : String} {e : DlErr} (mk : Option DlErr)
    (eng : ExtractEngine) (dl dlf : Option String) (t : Nat) (q : String) (a : Bool)
    (vr : Option (Int × Int)) (pi : Option PlMeta)
    (h : validate_url url = some e) :
    download_playlist mk eng dl dlf t url q a vr pi = (.error e, 0) := by
  rw [download_playlist.eq_def, h]

/-! ## Claim C1 — error-classification precedence in `download_video` -/

/-- Claim C1, as stated, is false on the code: `download_video`'s handler
tests private/unavailable first, then timeout, then 403; a raw message
containing both `403` and `timeout` therefore classifies as a network
timeout, not as access denial. -/
theorem C1_counterexample :
    error_contains "HTTP Error 403: request timeout" ["403", "forbidden"] = true ∧
    error_contains "HTTP Error 403: request timeout" ["timeout", "timed out"] = true ∧
    classify_download_error "HTTP Error 403: request timeout" false = .networkTimeout ∧
    classify_download_error "HTTP Error 403: request timeout" false ≠ .accessDenied := by
  decide

/-- Claim C1 (corrected): the precedence order of `download_video`'s error
classification is unavailable/private first, then timeout, then access-denied
(403/forbidden), then disk-space, then post-processing-tool-missing (audio
only), then generic; in particular a message containing both "403" and
"timeout" is classified as a network timeout. -/
theorem C1_classification_precedence (msg : String) (audio_only : Bool) :
    (error_contains msg ["private video", "unavailable"] = true →
      classify_download_error msg audio_only = .videoUnavailable) ∧
    (error_contains msg ["private video", "unavailable"] = false →
      error_contains msg ["timeout", "timed out"] = true →
      classify_download_error msg audio_only = .networkTimeout) ∧
    (error_contains msg ["private video", "unavailable"] = false →
      error_contains msg ["timeout", "timed out"] = false →
      error_contains msg ["403", "forbidden"] = true →
      classify_download_error msg audio_only = .accessDenied) ∧
    (error_contains msg ["private video", "unavailable"] = false →
      error_contains msg ["timeout", "timed out"] = false →
      error_contains msg ["403", "forbidden"] = false →
      error_contains msg ["no space left"] = true →
      classify_download_error msg audio_only = .diskSpace) ∧
    (error_contains msg ["private video", "unavailable"] = false →
      error_contains msg ["timeout", "timed out"] = false →
      error_contains msg ["403", "forbidden"] = false →
      error_contains msg ["no space left"] = false →
      error_contains msg ["ffmpeg"] = true → audio_only = true →
      classify_download_error msg audio_only = .ffmpegMissing) ∧
    (error_contains msg ["private video", "unavailable"] = false →
      error_contains msg ["timeout", "timed out"] = false →
      error_contains msg ["403", "forbidden"] = false →
      error_contains msg ["no space left"] = false →
      (error_contains msg ["ffmpeg"] && audio_only) = false →
      classify_download_error msg audio_only = .generic) := by
  refine ⟨?_, ?_, ?_, ?_, ?_, ?_⟩ <;>
    intro h1 <;>
    simp_all [classify_download_error, is_private_video_error, is_timeout_error,
      is_http_403_error, is_disk_space_error, is_ffmpeg_error]

/-- Witness for C1's corrected theorem at the message from the
counterexample. -/
theorem C1_witness :
    error_contains "HTTP Error 403: request timeout" ["private video", "unavailable"] = false ∧
    error_contains "HTTP Error 403: request timeout" ["timeout", "timed out"] = true ∧
    classify_download_error "HTTP Error 403: request timeout" false = .networkTimeout :=
  ⟨by decide, by decide,
    (C1_classification_precedence "HTTP Error 403: request timeout" false).2.1
      (by decide) (by decide)⟩

/-! ## Claim C2 — gating of the fallback ladder -/

/-- Claim C2, as stated, is false on the code: after a 403 at the primary
rung, a disk-space failure at the first audio rung does not abort the ladder;
the next rung still runs (and here succeeds). -/
theorem C2_counterexample :
    try_download_with_fallbacks
      (fun i => if i = 0 then some "HTTP Error 403: Forbidden"
        else if i = 1 then some "ERROR: [Errno 28] No space left on device" else none)
      true = ([0, 1, 2], .success) ∧
    is_http_403_error "ERROR: [Errno 28] No space left on device" = false ∧
    is_disk_space_error "ERROR: [Errno 28] No space left on device" = true := by
  decide

/-- Claim C2 (corrected): only the first rung of
`_try_download_with_fallbacks` gates on access-denial — a non-403
`DownloadError` at the primary attempt aborts the ladder and is re-raised;
once the primary attempt fails with a 403, every later rung swallows any
`DownloadError` of the previous rung and the ladder continues (its outcome is
success or exhaustion, never a re-raise of a later rung's failure). -/
theorem C2_ladder_gating (eng : Nat → Option String) (audio_only : Bool) (m : String)
    (h0 : eng 0 = some m) :
    (is_http_403_error m = false →
      try_download_with_fallbacks eng audio_only = ([0], .raised m)) ∧
    (is_http_403_error m = true →
      ∀ m2, (try_download_with_fallbacks eng audio_only).2 ≠ .raised m2) := by
  constructor
  · intro h403
    simp [try_download_with_fallbacks, h0, h403]
  · intro h403 m2
    simp only [try_download_with_fallbacks, h0, h403, if_pos]
    cases (run_rungs eng (ladder_rungs audio_only)).2 <;> simp

/-- Witness for C2's corrected theorem: a 403-everywhere engine exhausts the
audio ladder without ever re-raising. -/
theorem C2_witness :
    (fun (_ : Nat) => some "403") 0 = some "403" ∧
    is_http_403_error "403" = true ∧
    (try_download_with_fallbacks (fun _ => some "403") true).2 ≠ .raised "x" :=
  ⟨rfl, by decide,
    (C2_ladder_gating (fun _ => some "403") true "403" rfl).2 (by decide) "x"⟩

/-! ## Claim C3 — audio primary-attempt short-circuit -/

/-- Claim C3 (confirmed): for an audio-only request whose primary attempt
fails with a non-403 `DownloadError`, the ladder stops at once — exactly one
engine call is made (strategy 0 only) — and `download_video` surfaces the
failure as its typed error. -/
theorem C3_audio_short_circuit (engF : String → Nat → Option String)
    (m url quality : String)
    (h0 : engF "bestaudio/best" 0 = some m)
    (h403 : is_http_403_error m = false)
    (hurl : validate_url url = none) :
    try_download_with_fallbacks (engF "bestaudio/best") true = ([0], .raised m) ∧
    download_video none engF url quality true =
      (.error (typed_download_error m true), 1) := by
  have hl : try_download_with_fallbacks (engF "bestaudio/best") true = ([0], .raised m) := by
    simp [try_download_with_fallbacks, h0, h403]
  refine ⟨hl, ?_⟩
  rw [download_video.eq_def, hurl]
  simp [hl]

/-- Witness for C3 at a disk-space failure: one attempt, surfaced as the
disk-space `YouTubeDownloaderError`. -/
theorem C3_witness :
    validate_url "https://www.youtube.com/watch?v=abc" = none ∧
    typed_download_error "ERROR: [Errno 28] No space left on device" true =
      .downloaderError ErrorMessages.DISK_SPACE_ERROR ∧
    download_video none
      (fun _ i => if i = 0 then some "ERROR: [Errno 28] No space left on device" else none)
      "https://www.youtube.com/watch?v=abc" "best" true =
      (.error (typed_download_error "ERROR: [Errno 28] No space left on device" true), 1) :=
  ⟨by decide, by decide,
    (C3_audio_short_circuit
      (fun _ i => if i = 0 then some "ERROR: [Errno 28] No space left on device" else none)
      "ERROR: [Errno 28] No space left on device"
      "https://www.youtube.com/watch?v=abc" "best"
      (by decide) (by decide) (by decide)).2⟩

/-! ## Claim C4 — playlist range validation -/

theorem download_failed_ne_range (m : String) :
    ErrorMessages.DOWNLOAD_FAILED m ≠ "Invalid video range specified" := by
  intro h
  have h2 := congrArg (fun s => s.data.head?) h
  have h3 : (some 'D' : Option Char) = some 'I' := h2
  exact absurd h3 (by decide)

theorem playlist_dl_error_ne_range (m : String) :
    playlist_dl_error m ≠ DlErr.playlistError "Invalid video range specified" := by
  rw [playlist_dl_error]
  split
  · simp
  · split
    · intro h
      rw [DlErr.playlistError.injEq] at h
      exact absurd h (by decide)
    · intro h
      rw [DlErr.playlistError.injEq] at h
      exact download_failed_ne_range m h

/-- Claim C4, as stated, is false on the code: for range `(3, 3)` on a
50-item collection the claim's condition (`start >= end` after clamping both
to `[1, n]`) predicts an invalid-range failure, but `download_playlist`
compares the converted indices `max(0, start-1) >= min(n, end)` (2 >= 3 is
false) and proceeds, downloading exactly item 3. -/
theorem C4_counterexample :
    claimed_range_invalid 50 3 3 = true ∧
    range_invalid 50 3 3 = false ∧
    (download_playlist none (fun _ _ => .noInfo) none none 30
      "https://www.youtube.com/playlist?list=x" "best" false (some (3, 3))
      (some { title := "T", video_count := 50 })).1 =
      .ok { success := true, playlist_title := "T", total_videos := 1, downloaded := 0,
            failed := 0, skipped := 0, errors := [] } := by
  decide

/-- Claim C4 (corrected): with an explicit range `(start, end)` and item
count `n`, `download_playlist` fails with the invalid-range error if and only
if `max(0, start-1) >= min(n, end)`; for 1-based positive `start` this is
`start > min(end, n)` (strict, not `>=`, after clamping only `end`).  The
claim's two examples hold: `(10, 5)` on 50 items fails, `(1, 10)` on 5 items
clamps `end` to 5 and proceeds. -/
theorem C4_range_check (eng : ExtractEngine) (dl dlf : Option String) (t : Nat)
    (url title quality : String) (audio_only : Bool) (n : Nat) (s e : Int)
    (hurl : validate_url url = none) :
    ((download_playlist none eng dl dlf t url quality audio_only (some (s, e))
        (some { title := title, video_count := n })).1 =
      .error (.playlistError "Invalid video range specified") ↔
      range_invalid (n : Int) s e = true) ∧
    (1 ≤ s → (range_invalid (n : Int) s e = true ↔ min (n : Int) e < s)) ∧
    range_invalid 50 10 5 = true ∧
    range_invalid 5 1 10 = false := by
  refine ⟨?_, ?_, by decide, by decide⟩
  · constructor
    · intro hres
      by_cases hr : range_invalid (n : Int) s e = true
      · exact hr
      · exfalso
        simp only [Bool.not_eq_true] at hr
        rw [download_playlist.eq_def, hurl] at hres
        cases dl with
        | none => simp [hr] at hres
        | some m =>
          simp [hr] at hres
          split at hres
          · cases dlf with
            | none => simp at hres
            | some m2 => exact playlist_dl_error_ne_range m2 (by simpa using hres)
          · exact playlist_dl_error_ne_range m (by simpa using hres)
    · intro hr
      rw [download_playlist.eq_def, hurl]
      simp [hr]
  · intro hs
    simp only [range_invalid, decide_eq_true_eq]
    omega

/-- Witness for C4's corrected theorem at the specification's failing
case of range `(10, 5)` on 50 items. -/
theorem C4_witness :
    validate_url "https://www.youtube.com/playlist?list=x" = none ∧
    range_invalid (50 : Int) 10 5 = true ∧
    ((download_playlist none (fun _ _ => .noInfo) none none 30
        "https://www.youtube.com/playlist?list=x" "best" false (some (10, 5))
        (some { title := "T", video_count := 50 })).1 =
      .error (.playlistError "Invalid video range specified") ↔
      range_invalid ((50 : Nat) : Int) 10 5 = true) :=
  ⟨by decide, by decide,
    (C4_range_check (fun _ _ => .noInfo) none none 30
      "https://www.youtube.com/playlist?list=x" "T" "best" false 50 10 5 (by decide)).1⟩

/-! ## Claim C5 — URL validation before any engine interaction -/

/-- Claim C5, as stated, is false on the code: validation is a substring
test, not a domain test.  This URL's domain (`netloc`) is `evil.example`,
outside the allowlist, and the URL is short; yet `get_video_info` accepts it
(the allowlisted string `youtube.com` appears in its query) and invokes the
extraction engine (call counter 1), rather than raising `InvalidURLError`. -/
theorem C5_counterexample :
    String.mk (urlparseNetlocQuery "https://evil.example/?youtube.com").1 = "evil.example" ∧
    "evil.example" ∉ ValidationConfig.YOUTUBE_DOMAINS ∧
    "https://evil.example/?youtube.com".length ≤ ValidationConfig.MAX_URL_LENGTH ∧
    validate_url "https://evil.example/?youtube.com" = none ∧
    (get_video_info (fun _ _ => .noInfo) 30 "https://evil.example/?youtube.com").2 = 1 ∧
    (get_video_info (fun _ _ => .noInfo) 30 "https://evil.example/?youtube.com").1 =
      .error (.downloaderError
        "Unexpected error getting video info: Could not extract video information") := by
  decide

/-- Claim C5 (corrected): for every URL that does not contain any allowlisted
domain string as a case-insensitive substring, or whose length exceeds 2048
characters, every public resolution/fetch entry point raises
`InvalidURLError` with zero engine invocations. -/
theorem C5_validation_first (url : String)
    (h : is_valid_url url = false ∨ ValidationConfig.MAX_URL_LENGTH < url.length) :
    ∃ m, validate_url url = some (.invalidURL m) ∧
      ∀ (eng : ExtractEngine) (engF : String → Nat → Option String)
        (mk : Option DlErr) (dl dlf : Option String) (t : Nat) (quality : String)
        (audio_only : Bool) (vr : Option (Int × Int)) (pi : Option PlMeta),
        get_video_info eng t url = (.error (.invalidURL m), 0) ∧
        get_playlist_info eng t url = (.error (.invalidURL m), 0) ∧
        get_content_info eng t url = (.error (.invalidURL m), 0) ∧
        get_video_and_playlist_info eng t url = (.error (.invalidURL m), 0) ∧
        download_video mk engF url quality audio_only = (.error (.invalidURL m), 0) ∧
        download_playlist mk eng dl dlf t url quality audio_only vr pi =
          (.error (.invalidURL m), 0) := by
  obtain ⟨m, hm⟩ := validate_url_some_of h
  exact ⟨m, hm, fun eng engF mk dl dlf t quality audio_only vr pi =>
    ⟨get_video_info_invalid eng t hm, get_playlist_info_invalid eng t hm,
     get_content_info_invalid eng t hm, get_video_and_playlist_info_invalid eng t hm,
     download_video_invalid mk engF quality audio_only hm,
     download_playlist_invalid mk eng dl dlf t quality audio_only vr pi hm⟩⟩

/-- Witness for C5's corrected theorem at a non-allowlisted URL. -/
theorem C5_witness :
    is_valid_url "https://example.org/video" = false ∧
    (∃ m, validate_url "https://example.org/video" = some (.invalidURL m) ∧
      ∀ (eng : ExtractEngine) (engF : String → Nat → Option String)
        (mk : Option DlErr) (dl dlf : Option String) (t : Nat) (quality : String)
        (audio_only : Bool) (vr : Option (Int × Int)) (pi : Option PlMeta),
        get_video_info eng t "https://example.org/video" = (.error (.invalidURL m), 0) ∧
        get_playlist_info eng t "https://example.org/video" = (.error (.invalidURL m), 0) ∧
        get_content_info eng t "https://example.org/video" = (.error (.invalidURL m), 0) ∧
        get_video_and_playlist_info eng t "https://example.org/video" =
          (.error (.invalidURL m), 0) ∧
        download_video mk engF "https://example.org/video" quality audio_only =
          (.error (.invalidURL m), 0) ∧
        download_playlist mk eng dl dlf t "https://example.org/video" quality audio_only
          vr pi = (.error (.invalidURL m), 0)) :=
  ⟨by decide, C5_validation_first "https://example.org/video" (Or.inl (by decide))⟩

/-! ## Claim C6 — format list deduplication -/

/-- Claim C6 (confirmed): the published format list keeps only entries with a
present, truthy height and extension, renders them as `"{height}p - {ext}"`,
and removes duplicates while preserving first-seen order: on the claim's
input the result is exactly `["720p - mp4", "480p - webm"]`; in general the
output has no duplicates, is a subsequence of the rendered kept entries
(order preserved), contains exactly the rendered kept entries, and an entry
with a missing height or extension is dropped. -/
theorem C6_format_dedup :
    get_available_formats
      [⟨some "avc1", some 720, some "mp4"⟩, ⟨some "avc1", some 720, some "mp4"⟩,
       ⟨some "vp9", some 480, some "webm"⟩, ⟨some "avc1", none, some "mp4"⟩] =
      ["720p - mp4", "480p - webm"] ∧
    (∀ fmts : List VideoFormat, (get_available_formats fmts).Nodup) ∧
    (∀ fmts : List VideoFormat,
      List.Sublist (get_available_formats fmts) (fmts.filterMap renderFormat)) ∧
    (∀ (fmts : List VideoFormat) (x : String),
      x ∈ get_available_formats fmts ↔ x ∈ fmts.filterMap renderFormat) ∧
    (∀ f : VideoFormat, f.height = none ∨ f.ext = none → renderFormat f = none) := by
  refine ⟨by decide, fun fmts => dict_fromkeys_nodup _, fun fmts => dict_fromkeys_sublist _,
    fun fmts x => mem_dict_fromkeys, ?_⟩
  rintro f (h | h)
  · simp [renderFormat, h]
  · rcases hh : f.height with _ | hv <;> simp [renderFormat, h, hh]

/-- Witness for C6 instantiating the dropped-entry and membership parts. -/
theorem C6_witness :
    renderFormat ⟨some "avc1", none, some "mp4"⟩ = none ∧
    ("720p - mp4" ∈ get_available_formats [⟨some "avc1", some 720, some "mp4"⟩] ↔
      "720p - mp4" ∈
        List.filterMap renderFormat
          [(⟨some "avc1", some 720, some "mp4"⟩ : VideoFormat)]) :=
  ⟨C6_format_dedup.2.2.2.2 ⟨some "avc1", none, some "mp4"⟩ (Or.inl rfl),
   C6_format_dedup.2.2.2.1 [⟨some "avc1", some 720, some "mp4"⟩] "720p - mp4"⟩

/-! ## Claim C7 — estimated playlist download minutes -/

/-- Claim C7 (confirmed): every successful `get_playlist_info` result carries
`estimated_time_minutes = video_count * midpoint / 60` where the midpoint of
the configured sleep-interval bounds `(15, 25)` is 20 (integer arithmetic,
truncated exactly as Python's `int()` does); for 30 items the estimate is
exactly 10 minutes. -/
theorem C7_estimated_minutes (eng : ExtractEngine) (t : Nat) (url : String)
    (p : PlaylistInfo) (h : (get_playlist_info eng t url).1 = .ok p) :
    p.estimated_time_minutes =
      p.video_count *
        ((DownloadConfig.DEFAULT_SLEEP_INTERVAL + DownloadConfig.MAX_SLEEP_INTERVAL) / 2) /
        60 ∧
    (p.video_count = 30 → p.estimated_time_minutes = 10) := by
  have hmain : p.estimated_time_minutes =
      p.video_count *
        ((DownloadConfig.DEFAULT_SLEEP_INTERVAL + DownloadConfig.MAX_SLEEP_INTERVAL) / 2) /
        60 := by
    rcases hv : validate_url url with _ | e
    · cases he : eng true url with
      | ok info =>
        simp only [get_playlist_info, hv, he] at h
        repeat' split at h
        all_goals
          first
            | (simp only [Except.ok.injEq] at h; subst h; rfl)
            | simp at h
      | noInfo => simp [get_playlist_info, hv, he] at h
      | sockTimeout => simp [get_playlist_info, hv, he] at h
      | urlError m =>
        simp only [get_playlist_info, hv, he] at h
        repeat' split at h
        all_goals simp at h
      | dlError m =>
        simp only [get_playlist_info, hv, he] at h
        repeat' split at h
        all_goals simp at h
      | otherError m => simp [get_playlist_info, hv, he] at h
    · simp [get_playlist_info, hv] at h
  refine ⟨hmain, fun h30 => ?_⟩
  rw [hmain, h30]
  decide

/-- Witness for C7: a 30-entry playlist yields an estimate of exactly 10
minutes. -/
theorem C7_witness :
    (get_playlist_info
        (fun _ _ => .ok { typeTag := some "playlist", title := none, uploader := none,
                          description := none, duration := none, idTag := none,
                          entries := List.replicate 30 "e", formats := [] })
        30 "https://www.youtube.com/playlist?list=PL1").1 =
      .ok { title := "Unknown Playlist", uploader := "Unknown", description := "",
            video_count := 30, estimated_time_minutes := 10,
            entries := List.replicate 10 "e",
            url := "https://www.youtube.com/playlist?list=PL1", idTag := "" } ∧
    (30 : Nat) * ((DownloadConfig.DEFAULT_SLEEP_INTERVAL +
        DownloadConfig.MAX_SLEEP_INTERVAL) / 2) / 60 = 10 ∧
    ({ title := "Unknown Playlist", uploader := "Unknown", description := "",
       video_count := 30, estimated_time_minutes := 10,
       entries := List.replicate 10 "e",
       url := "https://www.youtube.com/playlist?list=PL1",
       idTag := "" } : PlaylistInfo).estimated_time_minutes = 10 :=
  ⟨by decide, by decide,
    (C7_estimated_minutes
      (fun _ _ => .ok { typeTag := some "playlist", title := none, uploader := none,
                        description := none, duration := none, idTag := none,
                        entries := List.replicate 30 "e", formats := [] })
      30 "https://www.youtube.com/playlist?list=PL1" _ (by decide)).2 rfl⟩

/-! ## Claim C8 — idempotence of canonical-video-URL extraction -/

/-- Claim C8, as stated, is false on the code: extraction is not idempotent.
For `https://youtu.be/watch?v=x?v=y` the extracted id is `x?v=y` and the
rebuilt short-link `https://youtu.be/x?v=y` re-parses with query `v=y`, so a
second application produces `https://youtu.be/y`. -/
theorem C8_counterexample :
    extract_video_url_from_playlist "https://youtu.be/watch?v=x?v=y" =
      "https://youtu.be/x?v=y" ∧
    extract_video_url_from_playlist
      (extract_video_url_from_playlist "https://youtu.be/watch?v=x?v=y") =
      "https://youtu.be/y" ∧
    extract_video_url_from_playlist
      (extract_video_url_from_playlist "https://youtu.be/watch?v=x?v=y") ≠
      extract_video_url_from_playlist "https://youtu.be/watch?v=x?v=y" := by
  decide

theorem urlparse_canonical_yt (vid : List Char) (h1 : '#' ∉ vid) :
    urlparseNetlocQuery ("https://www.youtube.com/watch?v=" ++ String.mk vid) =
      ("www.youtube.com".data, 'v' :: '=' :: vid) := by
  have hfrag : splitOnFirst '#' ("/watch?v=".data ++ vid) =
      ("/watch?v=".data ++ vid, none) :=
    splitOnFirst_not_mem (by
      simp only [List.mem_append, not_or]
      exact ⟨by decide, h1⟩)
  calc urlparseNetlocQuery ("https://www.youtube.com/watch?v=" ++ String.mk vid)
      = ("www.youtube.com".data,
          ((splitOnFirst '?' ((splitOnFirst '#' ("/watch?v=".data ++ vid)).1)).2).getD []) :=
        rfl
    _ = ("www.youtube.com".data,
          ((splitOnFirst '?' ("/watch".data ++ ('?' :: ('v' :: '=' :: vid)))).2).getD []) := by
        rw [hfrag]; rfl
    _ = ("www.youtube.com".data, 'v' :: '=' :: vid) := by
        rw [splitOnFirst_append_not_mem _ (by decide), splitOnFirst_cons_self]; rfl

theorem getParamV_canonical (vid : List Char) (hne : vid ≠ [])
    (hv : vid.all isVidChar = true) : getParamV ('v' :: '=' :: vid) = some vid := by
  obtain ⟨a, t, rfl⟩ : ∃ a t, vid = a :: t := by
    cases vid with
    | nil => exact absurd rfl hne
    | cons a t => exact ⟨a, t, rfl⟩
  have hamp : '&' ∉ ('v' :: '=' :: a :: t) := by
    simp only [List.mem_cons, not_or]
    refine ⟨by decide, by decide, ?_⟩
    have := not_mem_of_all_vidchar hv (show isVidChar '&' = false by decide)
    simp only [List.mem_cons, not_or] at this
    exact this
  have key : getParamV ('v' :: '=' :: a :: t) =
      ((([(unquotePlus ['v'], unquotePlus (a :: t))].filter
          (fun p => p.1 = ['v'])).head?).map (fun p => p.2)) := by
    rw [getParamV, parse_qsl, splitList_not_mem hamp]; rfl
  have hplus : '+' ∉ (a :: t) := not_mem_of_all_vidchar hv (by decide)
  have hpct : '%' ∉ (a :: t) := not_mem_of_all_vidchar hv (by decide)
  rw [key, unquotePlus_id hplus hpct]; rfl

theorem extract_fixed_yt (vid : List Char) (hne : vid ≠ [])
    (hv : vid.all isVidChar = true) :
    extract_video_url_from_playlist ("https://www.youtube.com/watch?v=" ++ String.mk vid) =
      "https://www.youtube.com/watch?v=" ++ String.mk vid := by
  have h1 : '#' ∉ vid := not_mem_of_all_vidchar hv (by decide)
  have hie : vid.isEmpty = false := by
    cases vid with
    | nil => exact absurd rfl hne
    | cons a t => rfl
  simp only [extract_video_url_from_playlist, urlparse_canonical_yt vid h1]
  rw [getParamV_canonical vid hne hv]
  simp [hie, show containsSub "youtube.com".data "www.youtube.com".data = true from by decide]

theorem extract_fixed_be (vid : List Char) (hne : vid ≠ [])
    (hv : vid.all isVidChar = true) :
    extract_video_url_from_playlist ("https://youtu.be/" ++ String.mk vid) =
      "https://youtu.be/" ++ String.mk vid := by
  have hhash : '#' ∉ ('/' :: vid) := by
    simp only [List.mem_cons, not_or]
    exact ⟨by decide, not_mem_of_all_vidchar hv (by decide)⟩
  have hqm : '?' ∉ ('/' :: vid) := by
    simp only [List.mem_cons, not_or]
    exact ⟨by decide, not_mem_of_all_vidchar hv (by decide)⟩
  have key : urlparseNetlocQuery ("https://youtu.be/" ++ String.mk vid) =
      ("youtu.be".data, []) := by
    calc urlparseNetlocQuery ("https://youtu.be/" ++ String.mk vid)
        = ("youtu.be".data,
            ((splitOnFirst '?' ((splitOnFirst '#' ('/' :: vid)).1)).2).getD []) := rfl
      _ = ("youtu.be".data, ((splitOnFirst '?' ('/' :: vid)).2).getD []) := by
          rw [splitOnFirst_not_mem hhash]
      _ = ("youtu.be".data, []) := by
          rw [splitOnFirst_not_mem hqm]; rfl
  simp only [extract_video_url_from_playlist, key]
  rfl

/-- Claim C8 (corrected): `_extract_video_url_from_playlist` is idempotent
whenever the v-parameter it extracts (if any) consists only of well-formed
video-id characters (ASCII alphanumerics, `-`, `_`) — in particular on every
real YouTube id — but not for every URL string, because the rebuilt URL is
re-parsed on the second application. -/
theorem C8_idempotent_on_wellformed_ids (u : String) (h : extractedVidOk u = true) :
    extract_video_url_from_playlist (extract_video_url_from_playlist u) =
      extract_video_url_from_playlist u := by
  rcases hv : extractedVid u with _ | vid
  · have hu : extract_video_url_from_playlist u = u := by
      simp only [extract_video_url_from_playlist]
      rw [show getParamV (urlparseNetlocQuery u).2 = none from hv]
    rw [hu]; exact hu
  · have hall : vid.all isVidChar = true := by
      rw [extractedVidOk, hv] at h
      exact h
    by_cases hemp : vid.isEmpty = true
    · have hu : extract_video_url_from_playlist u = u := by
        simp only [extract_video_url_from_playlist]
        rw [show getParamV (urlparseNetlocQuery u).2 = some vid from hv]
        simp [hemp]
      rw [hu]; exact hu
    · have hne : vid ≠ [] := by
        cases vid with
        | nil => exact absurd rfl hemp
        | cons a t => simp
      by_cases hyt : containsSub "youtube.com".data (urlparseNetlocQuery u).1 = true
      · have hu : extract_video_url_from_playlist u =
            "https://www.youtube.com/watch?v=" ++ String.mk vid := by
          simp only [extract_video_url_from_playlist]
          rw [show getParamV (urlparseNetlocQuery u).2 = some vid from hv]
          simp [hemp, hyt]
        rw [hu]
        exact extract_fixed_yt vid hne hall
      · by_cases hbe : containsSub "youtu.be".data (urlparseNetlocQuery u).1 = true
        · have hu : extract_video_url_from_playlist u =
              "https://youtu.be/" ++ String.mk vid := by
            simp only [extract_video_url_from_playlist]
            rw [show getParamV (urlparseNetlocQuery u).2 = some vid from hv]
            simp [hemp, hyt, hbe]
          rw [hu]
          exact extract_fixed_be vid hne hall
        · have hu : extract_video_url_from_playlist u = u := by
            simp only [extract_video_url_from_playlist]
            rw [show getParamV (urlparseNetlocQuery u).2 = some vid from hv]
            simp [hemp, hyt, hbe]
          rw [hu]; exact hu

/-- Witness for C8's corrected theorem at a real hybrid URL with a
well-formed id. -/
theorem C8_witness :
    extractedVidOk "https://www.youtube.com/watch?v=dQw4w9WgXcQ&list=PL123" = true ∧
    extract_video_url_from_playlist (extract_video_url_from_playlist
      "https://www.youtube.com/watch?v=dQw4w9WgXcQ&list=PL123") =
      extract_video_url_from_playlist
        "https://www.youtube.com/watch?v=dQw4w9WgXcQ&list=PL123" :=
  ⟨by decide,
    C8_idempotent_on_wellformed_ids
      "https://www.youtube.com/watch?v=dQw4w9WgXcQ&list=PL123" (by decide)⟩

/-! ## Claim C9 — empty / whitespace-only URLs -/

/-- Claim C9 (confirmed): a URL that is empty or consists only of whitespace
makes `_validate_url` raise `InvalidURLError("URL cannot be empty")`, and
every public entry point that validates its URL surfaces exactly that error,
with zero engine invocations. -/
theorem C9_empty_url (url : String) (h : url.data.all isPySpace = true) :
    validate_url url = some (.invalidURL "URL cannot be empty") ∧
    ∀ (eng : ExtractEngine) (engF : String → Nat → Option String)
      (mk : Option DlErr) (dl dlf : Option String) (t : Nat) (quality : String)
      (audio_only : Bool) (vr : Option (Int × Int)) (pi : Option PlMeta),
      get_video_info eng t url = (.error (.invalidURL "URL cannot be empty"), 0) ∧
      get_playlist_info eng t url = (.error (.invalidURL "URL cannot be empty"), 0) ∧
      get_content_info eng t url = (.error (.invalidURL "URL cannot be empty"), 0) ∧
      get_video_and_playlist_info eng t url =
        (.error (.invalidURL "URL cannot be empty"), 0) ∧
      download_video mk engF url quality audio_only =
        (.error (.invalidURL "URL cannot be empty"), 0) ∧
      download_playlist mk eng dl dlf t url quality audio_only vr pi =
        (.error (.invalidURL "URL cannot be empty"), 0) := by
  have hv := validate_url_empty h
  exact ⟨hv, fun eng engF mk dl dlf t quality audio_only vr pi =>
    ⟨get_video_info_invalid eng t hv, get_playlist_info_invalid eng t hv,
     get_content_info_invalid eng t hv, get_video_and_playlist_info_invalid eng t hv,
     download_video_invalid mk engF quality audio_only hv,
     download_playlist_invalid mk eng dl dlf t quality audio_only vr pi hv⟩⟩

/-- Witness for C9 at a whitespace-only URL. -/
theorem C9_witness :
    "  \t ".data.all isPySpace = true ∧
    validate_url "  \t " = some (.invalidURL "URL cannot be empty") :=
  ⟨by decide, (C9_empty_url "  \t " (by decide)).1⟩

/-! ## Claim C10 — quality-string parsing in `download_video` -/

/-- Claim C10, as stated, is false on the code in its second half: for
quality `"0720p"` the segment `"0720"` parses as the integer 720, but the
selector embeds the raw segment text (`best[height<=0720]`), not the
integer's decimal rendering (`best[height<=720]`). -/
theorem C10_counterexample :
    height_segment "0720p" = "0720" ∧
    pyParseInt "0720" = some 720 ∧
    format_selector "0720p" = "best[height<=0720]" ∧
    format_selector "0720p" ≠ "best[height<=" ++ toString (720 : Int) ++ "]" := by
  decide

/-- Claim C10 (corrected): for a non-audio request whose quality string is
neither `best` nor `worst`, if the segment before the first `p` (or the whole
string when it has no `p`) does not parse as a Python integer, the selector
silently falls back to `best` — and `download_video` then behaves exactly as
for quality `best` rather than raising; when the segment does parse, the
selector is `best[height<=` followed by the raw segment text and `]` (equal
to the integer's decimal form only when the segment is canonical). -/
theorem C10_quality_parsing (quality : String)
    (h1 : quality ≠ "best") (h2 : quality ≠ "worst") :
    (pyParseInt (height_segment quality) = none → format_selector quality = "best") ∧
    (∀ n : Int, pyParseInt (height_segment quality) = some n →
      format_selector quality = "best[height<=" ++ height_segment quality ++ "]") ∧
    (∀ (engF : String → Nat → Option String) (mk : Option DlErr) (url : String),
      pyParseInt (height_segment quality) = none →
      download_video mk engF url quality false = download_video mk engF url "best" false) := by
  refine ⟨?_, ?_, ?_⟩
  · intro h
    simp [format_selector, h1, h2, h]
  · intro n h
    simp [format_selector, h1, h2, h]
  · intro engF mk url h
    have hf : format_selector quality = format_selector "best" := by
      simp [format_selector, h1, h2, h]
    simp only [download_video.eq_def, hf]

/-- Witness for C10's corrected theorem at the canonical quality string
`"720p - mp4"` and at a non-numeric quality. -/
theorem C10_witness :
    pyParseInt (height_segment "720p - mp4") = some 720 ∧
    format_selector "720p - mp4" =
      "best[height<=" ++ height_segment "720p - mp4" ++ "]" ∧
    format_selector "high" = "best" :=
  ⟨by decide,
   (C10_quality_parsing "720p - mp4" (by decide) (by decide)).2.1 720 (by decide),
   (C10_quality_parsing "high" (by decide) (by decide)).1 (by decide)⟩
